import Mathlib

/-!
Shallow embedding of the "Companion Pro" chat widget (client `app.js` and
server `server.js`), covering the components the specification talks about:
crisis detection, the lexicon-based sentiment scorer, the emotion timeline,
the local response selector, crisis escalation, the form-submit turn handler,
and the server `/api/chat` handler.

Modelling conventions:
* JS strings are `List Char`; `toLowerCase` is modelled on the ASCII fragment
  (all constants in the program are ASCII).
* JS numbers are modelled as `ℚ` (the scores are small decimal literals and
  the claims are threshold comparisons).
* `Math.random()`-driven choices take an explicit `Fin 3` index argument.
* `Date.now()` is an explicit `now : ℕ` argument (one value per turn).
* `scoreText` returns the bare number `0` for falsy input and an object
  otherwise; this is modelled by the sum type `ScoreRet`.
-/

namespace Companion

/-! ### Characters and strings -/

/-- JS `\s` (ASCII fragment): space, tab, newline, carriage return,
vertical tab, form feed. -/
def isSpaceChar (c : Char) : Bool :=
  c == ' ' || c == '\t' || c == '\n' || c == '\r' || c.toNat == 11 || c.toNat == 12

/-- JS `\w` word characters (used by the `\b` boundary assertion). -/
def isWordChar (c : Char) : Bool :=
  ('a' ≤ c && c ≤ 'z') || ('A' ≤ c && c ≤ 'Z') || ('0' ≤ c && c ≤ '9') || c == '_'

/-- `String.prototype.toLowerCase`, ASCII fragment. -/
def lowerChar (c : Char) : Char :=
  if 'A' ≤ c && c ≤ 'Z' then Char.ofNat (c.toNat + 32) else c

def toLower (l : List Char) : List Char := l.map lowerChar

/-- `String.prototype.trim`: strip leading and trailing whitespace. -/
def trim (l : List Char) : List Char :=
  (((l.dropWhile isSpaceChar).reverse).dropWhile isSpaceChar).reverse

/-- `p` is a prefix of `l` (boolean, by character comparison). -/
def pfxOf : List Char → List Char → Bool
  | [], _ => true
  | _ :: _, [] => false
  | a :: as, b :: bs => a == b && pfxOf as bs

/-- `p` occurs as a contiguous substring of `l` (JS `regex-literal.test` /
`String.includes` on already-lowercased text). -/
def subStrOf (p : List Char) : List Char → Bool
  | [] => pfxOf p []
  | b :: bs => pfxOf p (b :: bs) || subStrOf p bs

/-! ### The tokenizer: `text.match(/\b[^\s]+\b/g) || []`

A match must start at a word boundary, consume one or more non-space
characters (greedy, backtracking to the longest end that is again a word
boundary), and the scan then resumes after the match; on failure the scan
advances one character. -/

def wordOpt : Option Char → Bool
  | some c => isWordChar c
  | none => false

/-- `\b`: the word-character status changes between the two sides. -/
def boundaryB (p n : Option Char) : Bool := wordOpt p != wordOpt n

/-- Longest `k` with `1 ≤ k ≤ bound` such that a word boundary sits after the
first `k` characters of `l` (the backtracking search for the closing `\b`). -/
def findTokLen (l : List Char) : ℕ → Option ℕ
  | 0 => none
  | k + 1 =>
    if boundaryB (l.get? k) ((l.drop (k + 1)).head?) then some (k + 1)
    else findTokLen l k

def tokenizeAux : ℕ → Option Char → List Char → List (List Char)
  | 0, _, _ => []
  | _ + 1, _, [] => []
  | fuel + 1, prev, c :: cs =>
    let l := c :: cs
    let run := l.takeWhile fun ch => !isSpaceChar ch
    if boundaryB prev (some c) then
      match findTokLen l run.length with
      | some k => l.take k :: tokenizeAux fuel (l.get? (k - 1)) (l.drop k)
      | none => tokenizeAux fuel (some c) cs
    else tokenizeAux fuel (some c) cs

def tokenize (l : List Char) : List (List Char) := tokenizeAux l.length none l

/-! ### The lexicon (`LEXICON` in `app.js`) -/

structure LexEntry where
  score : ℚ
  emotion : String
deriving DecidableEq

def LEXICON_LIST : List (List Char × LexEntry) := [
  ("happy".data, ⟨9/10, "joy"⟩),
  ("joy".data, ⟨9/10, "joy"⟩),
  ("glad".data, ⟨6/10, "joy"⟩),
  ("excited".data, ⟨8/10, "joy"⟩),
  ("good".data, ⟨4/10, "calm"⟩),
  ("sad".data, ⟨-8/10, "sadness"⟩),
  ("depressed".data, ⟨-9/10, "sadness"⟩),
  ("lonely".data, ⟨-6/10, "sadness"⟩),
  ("anxious".data, ⟨-7/10, "anxiety"⟩),
  ("worried".data, ⟨-6/10, "anxiety"⟩),
  ("panic".data, ⟨-85/100, "anxiety"⟩),
  ("overwhelmed".data, ⟨-75/100, "overwhelm"⟩),
  ("angry".data, ⟨-6/10, "anger"⟩),
  ("frustrated".data, ⟨-5/10, "anger"⟩),
  ("okay".data, ⟨0, "neutral"⟩),
  ("fine".data, ⟨1/10, "neutral"⟩)]

/-- Object-key lookup `LEXICON[tok]` (keys are pairwise distinct). -/
def LEXICON (tok : List Char) : Option LexEntry :=
  (LEXICON_LIST.find? fun p => p.1 == tok).map Prod.snd

/-! ### Crisis patterns and detectors -/

/-- `CONFIG.CRISIS_PATTERNS` in `app.js`; each regex is a literal phrase and
is tested against the already-lowercased input. -/
def CRISIS_PATTERNS : List (List Char) := [
  "suicid".data, "kill myself".data, "end my life".data, "want to die".data,
  "hurting myself".data, "cant go on".data, "no reason to live".data,
  "die by myself".data]

/-- `detectCrisis` in `app.js`. -/
def detectCrisis (text : List Char) : Bool :=
  if text = [] then false
  else CRISIS_PATTERNS.any fun re => subStrOf re (toLower text)

/-- `CRISIS_PATTERNS` in `server.js` (two patterns fewer than the client). -/
def SERVER_CRISIS_PATTERNS : List (List Char) := [
  "suicid".data, "kill myself".data, "end my life".data, "want to die".data,
  "hurting myself".data, "cant go on".data]

/-- `detectCrisisServer` in `server.js`. -/
def detectCrisisServer (text : List Char) : Bool :=
  if text = [] then false
  else SERVER_CRISIS_PATTERNS.any fun re => subStrOf re (toLower text)

/-! ### The sentiment scorer (`scoreText` in `app.js`) -/

structure ScoreResult where
  score : ℚ
  emotion : String
  count : ℕ
deriving DecidableEq

/-- `scoreText` returns the number `0` for falsy input and an object
`{score, emotion, count}` otherwise. -/
inductive ScoreRet
  | num (q : ℚ)
  | res (r : ScoreResult)
deriving DecidableEq

/-- Projection modelling a JS read of `.score` (`none` = `undefined`). -/
def scoreFieldOf : ScoreRet → Option ℚ
  | .num _ => none
  | .res r => some r.score

/-- Projection modelling a JS read of `.emotion` (`none` = `undefined`). -/
def emotionFieldOf : ScoreRet → Option String
  | .num _ => none
  | .res r => some r.emotion

/-- `Math.min` on two numbers. -/
def jsMin (a b : ℚ) : ℚ := if a ≤ b then a else b

/-- `Math.max` on two numbers. -/
def jsMax (a b : ℚ) : ℚ := if a ≤ b then b else a

/-- The accumulator of the `tokens.forEach` loop in `scoreText`:
`sum`, `count`, `dominantEmotion` (`none` = JS `null`), `highestAbs`. -/
structure ScoreAcc where
  sum : ℚ
  count : ℕ
  dom : Option String
  hi : ℚ
deriving DecidableEq

/-- One iteration of the `tokens.forEach` loop body. -/
def scoreStep (a : ScoreAcc) (tok : List Char) : ScoreAcc :=
  match LEXICON tok with
  | none => a
  | some e =>
    if |e.score| > a.hi then ⟨a.sum + e.score, a.count + 1, some e.emotion, |e.score|⟩
    else ⟨a.sum + e.score, a.count + 1, a.dom, a.hi⟩

def scoreText (text : List Char) : ScoreRet :=
  if text = [] then .num 0
  else
    let a := (tokenize (toLower text)).foldl scoreStep ⟨0, 0, none, 0⟩
    let avg : ℚ := if a.count = 0 then 0 else a.sum / a.count
    .res ⟨jsMax (-1) (jsMin 1 avg), a.dom.getD "neutral", a.count⟩

/-- Field access on a `scoreText` result as the turn handler performs it.
Every call site in the handler passes a non-empty string, so the `.num`
branch (whose fields would be `undefined` in JS) is never reached there;
it carries a recognizable junk value. -/
def scoreRec (text : List Char) : ScoreResult :=
  match scoreText text with
  | .res r => r
  | .num _ => ⟨0, "undefined", 0⟩

/-! ### Session state: transcript, timeline, chat UI, crisis overlay -/

inductive Sender
  | user
  | bot
deriving DecidableEq

/-- The metadata object `{ts, score, emotion}` passed to `addMessageToUI`. -/
structure Meta where
  ts : ℕ
  score : ℚ
  emotion : String
deriving DecidableEq

structure UIMessage where
  text : List Char
  sender : Sender
  meta : Option Meta
deriving DecidableEq

/-- A transcript entry `{sender, text, ts, score, emotion, lexCount}`;
`lexCount = none` models a JS `undefined` (the crisis push omits `count`). -/
structure TranscriptEntry where
  sender : Sender
  text : List Char
  ts : ℕ
  score : ℚ
  emotion : String
  lexCount : Option ℕ
deriving DecidableEq

/-- A timeline event `{t, ...scoreObj}`. -/
structure TimelineEvent where
  t : ℕ
  score : ℚ
  emotion : String
  count : ℕ
deriving DecidableEq

/-- The module-level mutable state of `app.js`: `transcript`,
`emotionTimeline`, the rendered message list, and `crisisOverlay.hidden`.
The chart is a pure function of the timeline and is not modelled. -/
structure SessionState where
  transcript : List TranscriptEntry
  timeline : List TimelineEvent
  uiMessages : List UIMessage
  overlayHidden : Bool
deriving DecidableEq

/-- `pushToTimeline`: append, then `shift()` the oldest entry out when the
length exceeds 80. -/
def pushToTimeline (tl : List TimelineEvent) (e : TimelineEvent) : List TimelineEvent :=
  let tl' := tl ++ [e]
  if tl'.length > 80 then tl'.drop 1 else tl'

/-- The fixed bot message `escalateToCrisis` renders. -/
def CRISIS_UI_TEXT : List Char :=
  ("I hear you. I'm worried about your safety. Please consider contacting emergency services or a crisis line now.").data

def crisisUIMsg (now : ℕ) : UIMessage := ⟨CRISIS_UI_TEXT, .bot, some ⟨now, -1, "crisis"⟩⟩

/-- `escalateToCrisis`: reveal the overlay and add the fixed bot message. -/
def escalateToCrisis (st : SessionState) (now : ℕ) : SessionState :=
  { st with overlayHidden := false, uiMessages := st.uiMessages ++ [crisisUIMsg now] }

/-! ### The local response selector (`localReply` in `app.js`) -/

def HIGH_MSG : List Char :=
  ("I'm sorry you're going through such a hard time. Would you like a grounding or breathing exercise now?").data

def MOD_MSG : List Char :=
  ("I hear that this is difficult. Tell me more about what's been on your mind.").data

def POS_MSG : List Char :=
  ("It's great to hear some positivity. What do you think helped you feel this way?").data

def GENERICS : List (List Char) := [
  ("Tell me more — I'm listening.").data,
  ("That sounds important. How long have you been feeling that way?").data,
  ("Thanks for sharing that with me. What would be helpful right now?").data]

/-- `localReply(userText, scoreObj)`. `r` models the `Math.random()` draw
(`Math.floor(Math.random()*3)`).  The crisis branch calls `escalateToCrisis`
before returning `null`, so the function returns the (possibly) updated
session state alongside the reply. -/
def localReply (st : SessionState) (userText : List Char) (scoreObj : ScoreResult)
    (r : Fin 3) (now : ℕ) : Option (List Char) × SessionState :=
  if detectCrisis userText then (none, escalateToCrisis st now)
  else if scoreObj.score ≤ -(6/10) then (some HIGH_MSG, st)
  else if scoreObj.score < -(2/10) then (some MOD_MSG, st)
  else if scoreObj.score > 4/10 then (some POS_MSG, st)
  else (some (GENERICS.get (Fin.cast rfl r)), st)

/-! ### The form-submit turn handler (`inputForm` submit listener) -/

/-- The hard-coded default when `data.reply` is falsy. -/
def APOLOGY : List Char := ("Sorry, I'm having trouble responding right now.").data

/-- `{crisis, moderated}` as returned by the server. -/
structure Safety where
  crisis : Bool
  moderated : Bool
deriving DecidableEq

/-- Result of the `fetch` to `/api/chat` as the client sees it:
either a transport-level failure (network error, non-ok status, JSON parse
error) or a parsed body; `reply`/`safety` are `none` when the field is
absent. -/
inductive FetchOutcome
  | failure
  | success (reply : Option (List Char)) (safety : Option Safety)
deriving DecidableEq

/-- `data.reply || "Sorry, ..."`: missing or empty replies are replaced by
the apology default. -/
def defaultedReply : Option (List Char) → List Char
  | some s => if s = [] then APOLOGY else s
  | none => APOLOGY

/-- `data.safety && data.safety.crisis`. -/
def safetyCrisis : Option Safety → Bool
  | some s => s.crisis
  | none => false

/-- The shared shape of the three reply-producing paths: score the bot text,
render it, append it to the transcript and push it onto the timeline. -/
def botLog (st : SessionState) (text : List Char) (now : ℕ) : SessionState :=
  let sc := scoreRec text
  { st with
    uiMessages := st.uiMessages ++ [⟨text, .bot, some ⟨now, sc.score, sc.emotion⟩⟩],
    transcript := st.transcript ++ [⟨.bot, text, now, sc.score, sc.emotion, some sc.count⟩],
    timeline := pushToTimeline st.timeline ⟨now, sc.score, sc.emotion, sc.count⟩ }

/-- One run of the submit handler. `rawText` is the input-box value,
`useServer` the checkbox, `outcome` the result of the `fetch` (only consulted
on the server branch), `r` the `Math.random()` draw for a possible local
generic reply, and `now` the turn's `Date.now()` value. -/
def submitTurn (st : SessionState) (rawText : List Char) (useServer : Bool)
    (outcome : FetchOutcome) (r : Fin 3) (now : ℕ) : SessionState :=
  let text := trim rawText
  if text = [] then st
  else
    let scoreObj := scoreRec text
    let st1 : SessionState :=
      { st with
        uiMessages := st.uiMessages ++ [⟨text, .user, some ⟨now, scoreObj.score, scoreObj.emotion⟩⟩],
        transcript := st.transcript ++
          [⟨.user, text, now, scoreObj.score, scoreObj.emotion, some scoreObj.count⟩],
        timeline := pushToTimeline st.timeline ⟨now, scoreObj.score, scoreObj.emotion, scoreObj.count⟩ }
    if detectCrisis text then
      let st2 := escalateToCrisis st1 now
      { st2 with transcript := st2.transcript ++
          [⟨.bot, ("Crisis escalation message").data, now, -1, "crisis", none⟩] }
    else if useServer then
      match outcome with
      | .success reply? safety? =>
        let reply := defaultedReply reply?
        let st2 := botLog st1 reply now
        if safetyCrisis safety? then escalateToCrisis st2 now else st2
      | .failure =>
        match localReply st1 text scoreObj r now with
        | (some reply, st') => botLog st' reply now
        | (none, st') => st'
    else
      match localReply st1 text scoreObj r now with
      | (some reply, st') => botLog st' reply now
      | (none, st') => st'

/-! ### The server `/api/chat` handler (`server.js`) -/

structure ChatResponse where
  reply : List Char
  safety : Safety
deriving DecidableEq

/-- The LLM call as the handler observes it: no configured client, a failed
call, or a completion whose message content is `content`. -/
inductive LLMOutcome
  | disabled
  | failed
  | ok (content : List Char)
deriving DecidableEq

def SAFE_TEXT : List Char :=
  ("I'm concerned for your safety. If you are in immediate danger, please call your local emergency number now. Would you like crisis line information or someone to contact?").data

def SERVER_GENERICS : List (List Char) := [
  ("Thanks for sharing that — I'm listening. Can you tell me more?").data,
  ("That sounds important. How long have you felt this way?").data,
  ("I appreciate you telling me this. What would help you right now?").data]

/-- `generateDeterministicReply` in `server.js` (`r` is the random draw for
the generic bucket). -/
def generateDeterministicReply (text : List Char) (r : Fin 3) : List Char :=
  let lowered := toLower text
  if subStrOf ("help".data) lowered && subStrOf ("anx".data) lowered then
    ("I hear you're feeling anxious. Would you like a short breathing exercise? We can try one together.").data
  else if subStrOf ("sad".data) lowered || subStrOf ("depress".data) lowered then
    ("I'm sorry you're feeling sad. Want to tell me more about what's been happening lately?").data
  else SERVER_GENERICS.get (Fin.cast rfl r)

/-- `POST /api/chat`: `message = none` models a missing or non-string body
field; the error case carries the HTTP status code. -/
def serverRespond (message : Option (List Char)) (llm : LLMOutcome) (r : Fin 3) :
    Except ℕ ChatResponse :=
  match message with
  | none => .error 400
  | some msg =>
    if msg = [] then .error 400
    else if detectCrisisServer msg then .ok ⟨SAFE_TEXT, ⟨true, true⟩⟩
    else
      match llm with
      | .ok content =>
        let reply := trim content
        if reply = [] then .ok ⟨generateDeterministicReply msg r, ⟨false, false⟩⟩
        else .ok ⟨reply, ⟨false, false⟩⟩
      | _ => .ok ⟨generateDeterministicReply msg r, ⟨false, false⟩⟩

/-! ### Substring characterization -/

theorem pfxOf_iff (p l : List Char) : pfxOf p l = true ↔ ∃ rest, l = p ++ rest := by
  induction p generalizing l with
  | nil => simp [pfxOf]
  | cons a as ih =>
    cases l with
    | nil => simp [pfxOf]
    | cons b bs =>
      simp only [pfxOf, Bool.and_eq_true, beq_iff_eq, ih, List.cons_append, List.cons.injEq]
      constructor
      · rintro ⟨hab, rest, hrest⟩
        exact ⟨rest, hab.symm, hrest⟩
      · rintro ⟨rest, hab, hrest⟩
        exact ⟨hab.symm, rest, hrest⟩

theorem subStrOf_iff (p l : List Char) :
    subStrOf p l = true ↔ ∃ pre post, l = pre ++ p ++ post := by
  induction l with
  | nil =>
    simp only [subStrOf, pfxOf_iff]
    constructor
    · rintro ⟨rest, h⟩
      exact ⟨[], rest, by simpa using h⟩
    · rintro ⟨pre, post, h⟩
      refine ⟨[], ?_⟩
      have h' : pre ++ p ++ post = [] := h.symm
      rcases List.append_eq_nil.mp h' with ⟨h1, h3⟩
      rcases List.append_eq_nil.mp h1 with ⟨h4, h5⟩
      simp [h5]
  | cons b bs ih =>
    simp only [subStrOf, Bool.or_eq_true, pfxOf_iff, ih]
    constructor
    · rintro (⟨rest, h⟩ | ⟨pre, post, h⟩)
      · exact ⟨[], rest, by simpa using h⟩
      · exact ⟨b :: pre, post, by simp [h]⟩
    · rintro ⟨pre, post, h⟩
      cases pre with
      | nil => exact .inl ⟨post, by simpa using h⟩
      | cons x xs =>
        simp only [List.cons_append, List.cons.injEq] at h
        exact .inr ⟨xs, post, h.2⟩

/-- C1: the crisis detector is a pure function of its input; it returns
`false` on empty input, and on non-empty input it returns `true` exactly
when the lowercased text contains at least one of the fixed crisis patterns
as a substring (logical OR over the pattern list, no priority). -/
theorem C1_detectCrisis_characterization :
    detectCrisis [] = false ∧
    ∀ t : List Char, t ≠ [] →
      (detectCrisis t = true ↔
        ∃ p ∈ CRISIS_PATTERNS, ∃ pre post, toLower t = pre ++ p ++ post) := by
  refine ⟨rfl, fun t ht => ?_⟩
  simp only [detectCrisis, if_neg ht, List.any_eq_true, subStrOf_iff]

/-- Witness for C1 at a concrete mixed-case crisis input. -/
theorem C1_witness :
    (("I want to KILL myself").data ≠ ([] : List Char)) ∧
    (detectCrisis (("I want to KILL myself").data) = true ↔
      ∃ p ∈ CRISIS_PATTERNS, ∃ pre post,
        toLower (("I want to KILL myself").data) = pre ++ p ++ post) :=
  ⟨by decide, C1_detectCrisis_characterization.2 _ (by decide)⟩

/-- C7: the timeline is bounded to 80 entries with FIFO eviction: a push
preserves the 80-entry bound, pushing onto a full timeline drops exactly the
oldest entry, and a push below the bound is a plain append (insertion order
is preserved in both cases). -/
theorem C7_pushToTimeline_bound :
    (∀ tl e, tl.length ≤ 80 → (pushToTimeline tl e).length ≤ 80) ∧
    (∀ tl e, tl.length = 80 → pushToTimeline tl e = tl.drop 1 ++ [e]) ∧
    (∀ tl e, tl.length < 80 → pushToTimeline tl e = tl ++ [e]) := by
  refine ⟨fun tl e h => ?_, fun tl e h => ?_, fun tl e h => ?_⟩
  · by_cases h81 : (tl ++ [e]).length > 80
    · simp only [pushToTimeline, if_pos h81]
      simp only [List.length_drop, List.length_append, List.length_cons, List.length_nil] at *
      omega
    · simp only [pushToTimeline, if_neg h81]
      simp only [List.length_append, List.length_cons, List.length_nil] at *
      omega
  · have h81 : (tl ++ [e]).length > 80 := by simp [List.length_append, h]
    simp only [pushToTimeline, if_pos h81]
    cases tl with
    | nil => simp at h
    | cons x xs => simp
  · have h81 : ¬(tl ++ [e]).length > 80 := by
      simp only [List.length_append, List.length_cons, List.length_nil]
      omega
    simp only [pushToTimeline]
    rw [if_neg h81]

/-- Witness for C7 at a concrete 80-entry timeline. -/
theorem C7_witness :
    ((List.replicate 80 (⟨0, 0, "neutral", 0⟩ : TimelineEvent)).length = 80) ∧
    pushToTimeline (List.replicate 80 ⟨0, 0, "neutral", 0⟩) ⟨1, 0, "neutral", 0⟩ =
      (List.replicate 80 (⟨0, 0, "neutral", 0⟩ : TimelineEvent)).drop 1 ++ [⟨1, 0, "neutral", 0⟩] :=
  ⟨by decide, C7_pushToTimeline_bound.2.1 _ _ (by decide)⟩

/-- C8 counterexample: calling `escalateToCrisis` twice does not leave the
observable session state the same as calling it once — each call appends
another copy of the crisis bot message to the rendered messages. -/
theorem C8_counterexample :
    escalateToCrisis (escalateToCrisis ⟨[], [], [], true⟩ 0) 0 ≠
      escalateToCrisis ⟨[], [], [], true⟩ 0 := by
  with_unfolding_all decide

/-- C8 amended: repeated escalation is idempotent on the crisis flag (the
overlay stays shown) and leaves transcript and timeline untouched, but each
call appends one more copy of the fixed crisis message to the UI; and
escalation carries no memory across turns: any turn whose trimmed input
matches a crisis pattern re-triggers escalation (overlay shown, crisis
message rendered last, crisis transcript entry appended) from any prior
state. -/
theorem C8_escalation_amended :
    (∀ st now,
      (escalateToCrisis (escalateToCrisis st now) now).overlayHidden
          = (escalateToCrisis st now).overlayHidden ∧
      (escalateToCrisis st now).overlayHidden = false ∧
      (escalateToCrisis (escalateToCrisis st now) now).transcript
          = (escalateToCrisis st now).transcript ∧
      (escalateToCrisis (escalateToCrisis st now) now).timeline
          = (escalateToCrisis st now).timeline ∧
      (escalateToCrisis (escalateToCrisis st now) now).uiMessages
          = (escalateToCrisis st now).uiMessages ++ [crisisUIMsg now]) ∧
    (∀ st raw useServer o r now, trim raw ≠ [] → detectCrisis (trim raw) = true →
      (submitTurn st raw useServer o r now).overlayHidden = false ∧
      (submitTurn st raw useServer o r now).uiMessages.getLast? = some (crisisUIMsg now) ∧
      (submitTurn st raw useServer o r now).transcript.getLast? =
        some ⟨.bot, ("Crisis escalation message").data, now, -1, "crisis", none⟩) := by
  constructor
  · intro st now
    simp [escalateToCrisis]
  · intro st raw useServer o r now h1 h2
    simp [submitTurn, if_neg h1, if_pos h2, escalateToCrisis, List.getLast?_concat]

/-- Witness for C8 at a concrete crisis turn. -/
theorem C8_witness :
    (trim (("cant go on").data) ≠ []) ∧ (detectCrisis (trim (("cant go on").data)) = true) ∧
    (submitTurn ⟨[], [], [], true⟩ (("cant go on").data) false .failure 0 7).overlayHidden = false :=
  ⟨by decide, by decide,
    (C8_escalation_amended.2 ⟨[], [], [], true⟩ _ false .failure 0 7 (by decide) (by decide)).1⟩

/-- C2: the local selector returns `null` exactly when the crisis detector
flags the text; otherwise it returns the fixed message of the threshold
bucket (`score ≤ -0.6` high concern, `-0.6 < score < -0.2` moderate concern,
`score > 0.4` positive), the random draw being consulted only in the
remaining neutral bucket; and on "I am so happy and excited today" the score
exceeds 0.4 and the positive-path message is returned. -/
theorem C2_localReply_selection :
    (∀ st t s r now, ((localReply st t s r now).1 = none ↔ detectCrisis t = true)) ∧
    (∀ st t s r now, detectCrisis t = false → s.score ≤ -(6/10) →
        (localReply st t s r now).1 = some HIGH_MSG) ∧
    (∀ st t s r now, detectCrisis t = false → -(6/10) < s.score → s.score < -(2/10) →
        (localReply st t s r now).1 = some MOD_MSG) ∧
    (∀ st t s r now, detectCrisis t = false → s.score > 4/10 →
        (localReply st t s r now).1 = some POS_MSG) ∧
    (∀ st t s r now, detectCrisis t = false → -(2/10) ≤ s.score → s.score ≤ 4/10 →
        (localReply st t s r now).1 = some (GENERICS.get (Fin.cast rfl r))) ∧
    (∀ st st' t s r r' now now', detectCrisis t = false →
        ¬(-(2/10) ≤ s.score ∧ s.score ≤ 4/10) →
        (localReply st t s r now).1 = (localReply st' t s r' now').1) ∧
    ((scoreRec (("I am so happy and excited today").data)).score > 4/10 ∧
      ∀ st r now, (localReply st (("I am so happy and excited today").data)
        (scoreRec (("I am so happy and excited today").data)) r now).1 = some POS_MSG) := by
  have hnone : ∀ st t s (r : Fin 3) now,
      ((localReply st t s r now).1 = none ↔ detectCrisis t = true) := by
    intro st t s r now
    by_cases h : detectCrisis t = true
    · simp [localReply, h]
    · simp only [Bool.not_eq_true] at h
      simp only [localReply, h, Bool.false_eq_true, if_false]
      split_ifs <;> simp [h]
  have hhigh : ∀ st t s (r : Fin 3) now, detectCrisis t = false → s.score ≤ -(6/10) →
      (localReply st t s r now).1 = some HIGH_MSG := by
    intro st t s r now h hs
    simp [localReply, h, if_pos hs]
  have hmod : ∀ st t s (r : Fin 3) now, detectCrisis t = false →
      -(6/10) < s.score → s.score < -(2/10) → (localReply st t s r now).1 = some MOD_MSG := by
    intro st t s r now h h1 h2
    simp [localReply, h, if_neg (not_le.mpr h1), if_pos h2]
  have hpos : ∀ st t s (r : Fin 3) now, detectCrisis t = false → s.score > 4/10 →
      (localReply st t s r now).1 = some POS_MSG := by
    intro st t s r now h hs
    have h1 : ¬s.score ≤ -(6/10) := by linarith
    have h2 : ¬s.score < -(2/10) := by linarith
    simp [localReply, h, if_neg h1, if_neg h2, if_pos hs]
  have hgen : ∀ st t s (r : Fin 3) now, detectCrisis t = false →
      -(2/10) ≤ s.score → s.score ≤ 4/10 →
      (localReply st t s r now).1 = some (GENERICS.get (Fin.cast rfl r)) := by
    intro st t s r now h ha hb
    have h1 : ¬s.score ≤ -(6/10) := by linarith
    have h2 : ¬s.score < -(2/10) := not_lt.mpr ha
    have h3 : ¬s.score > 4/10 := not_lt.mpr hb
    simp [localReply, h, if_neg h1, if_neg h2, if_neg h3]
  refine ⟨hnone, hhigh, hmod, hpos, hgen, ?_, ?_, ?_⟩
  · intro st st' t s r r' now now' h hnb
    rcases not_and_or.mp hnb with hlt | hgt
    · rcases le_or_lt s.score (-(6/10)) with hle | hgt'
      · rw [hhigh st t s r now h hle, hhigh st' t s r' now' h hle]
      · have := not_le.mp hlt
        rw [hmod st t s r now h hgt' this, hmod st' t s r' now' h hgt' this]
    · have := not_le.mp hgt
      rw [hpos st t s r now h this, hpos st' t s r' now' h this]
  · with_unfolding_all decide
  · intro st r now
    exact hpos st _ _ r now (by decide) (by with_unfolding_all decide)

/-- Witness for C2 at a concrete high-concern score. -/
theorem C2_witness :
    detectCrisis (("ok").data) = false ∧
    ((⟨-1, "sadness", 1⟩ : ScoreResult).score ≤ -(6/10)) ∧
    (localReply ⟨[], [], [], true⟩ (("ok").data) ⟨-1, "sadness", 1⟩ 0 0).1 = some HIGH_MSG :=
  ⟨by decide, by with_unfolding_all decide,
    C2_localReply_selection.2.1 ⟨[], [], [], true⟩ _ _ 0 0 (by decide)
      (by with_unfolding_all decide)⟩

/-! ### The clamp `Math.max(-1, Math.min(1, avg))` -/

theorem clamp_range (x : ℚ) :
    -1 ≤ jsMax (-1) (jsMin 1 x) ∧ jsMax (-1) (jsMin 1 x) ≤ 1 := by
  unfold jsMax jsMin
  split_ifs <;> constructor <;> linarith

theorem clamp_zero : jsMax (-1) (jsMin 1 (0 : ℚ)) = 0 := by
  norm_num [jsMax, jsMin]

/-- C3 counterexample: on the empty string the scorer returns the bare
number `0`, not a `ScoreResult` record, so there is no `score` field at
all (a JS read of `.score` yields `undefined`). -/
theorem C3_counterexample :
    scoreText (("").data) = ScoreRet.num 0 ∧ scoreFieldOf (scoreText (("").data)) = none := by
  with_unfolding_all decide

/-- C3 amended: for every non-empty input the scorer returns a
`ScoreResult` record whose score lies in the closed interval [-1,1] and is
0 when no token matched; for empty (falsy) input the function instead
returns the bare number 0. -/
theorem C3_score_range_amended :
    ∀ t : List Char, t ≠ [] →
      ∃ r : ScoreResult, scoreText t = .res r ∧
        -1 ≤ r.score ∧ r.score ≤ 1 ∧ (r.count = 0 → r.score = 0) := by
  intro t ht
  simp only [scoreText, if_neg ht]
  refine ⟨_, rfl, (clamp_range _).1, (clamp_range _).2, fun hc => ?_⟩
  simp only at hc
  rw [if_pos hc]
  exact clamp_zero

/-- Witness for C3 (amended) at a concrete non-empty input. -/
theorem C3_witness :
    (("okay").data ≠ ([] : List Char)) ∧
    ∃ r : ScoreResult, scoreText (("okay").data) = .res r ∧
      -1 ≤ r.score ∧ r.score ≤ 1 ∧ (r.count = 0 → r.score = 0) :=
  ⟨by decide, C3_score_range_amended _ (by decide)⟩

/-- C9: every message flagged by the server-side crisis detector is also
flagged by the client-side detector (the server pattern list is a subset of
the client's); consequently, for any message the client would actually send
(one its own detector does not flag), every successful server response
carries `safety.crisis = false`, so the client's remote-crisis branch can
never fire on the original user message. -/
theorem C9_server_crisis_subset :
    (∀ t, detectCrisisServer t = true → detectCrisis t = true) ∧
    (∀ msg llm r resp, detectCrisis msg = false →
      serverRespond (some msg) llm r = .ok resp → resp.safety.crisis = false) := by
  have key : ∀ t, detectCrisisServer t = true → detectCrisis t = true := by
    intro t h
    by_cases ht : t = []
    · rw [ht] at h
      simp [detectCrisisServer] at h
    · simp only [detectCrisisServer, if_neg ht, List.any_eq_true] at h
      obtain ⟨p, hp, hsub⟩ := h
      have hsubset : ∀ x ∈ SERVER_CRISIS_PATTERNS, x ∈ CRISIS_PATTERNS := by decide
      simp only [detectCrisis, if_neg ht, List.any_eq_true]
      exact ⟨p, hsubset p hp, hsub⟩
  refine ⟨key, fun msg llm r resp hnc h => ?_⟩
  have hs : detectCrisisServer msg = false := by
    cases hcs : detectCrisisServer msg
    · rfl
    · rw [key msg hcs] at hnc
      cases hnc
  by_cases hm : msg = []
  · rw [hm] at h
    simp [serverRespond] at h
  · simp only [serverRespond, if_neg hm, hs, Bool.false_eq_true, if_false] at h
    cases llm with
    | disabled => cases h; rfl
    | failed => cases h; rfl
    | ok content =>
      simp only at h
      split at h <;> (cases h; rfl)

/-- Witness for C9 at a concrete server-flagged message. -/
theorem C9_witness :
    detectCrisisServer (("I feel suicidal").data) = true ∧
    detectCrisis (("I feel suicidal").data) = true :=
  ⟨by decide, C9_server_crisis_subset.1 _ (by decide)⟩

/-! ### Dominant-emotion characterization (for C6)

`specDominant` is the specification's reading: the emotion of the matched
token with the largest absolute valence, ties broken first-seen, "neutral"
when nothing matches.  The lemmas below prove the scorer's scan computes it.
-/

/-- The lexicon entries of the matched tokens, in token order. -/
def matchedEntries (toks : List (List Char)) : List LexEntry := toks.filterMap LEXICON

/-- The largest absolute valence among the matched entries (0 if none). -/
def maxAbsVal (es : List LexEntry) : ℚ := es.foldr (fun e m => jsMax |e.score| m) 0

/-- Specification-side dominant emotion: first matched entry attaining the
maximal absolute valence; "neutral" when no token matches. -/
def specDominant (toks : List (List Char)) : String :=
  match (matchedEntries toks).find?
      (fun e => |e.score| == maxAbsVal (matchedEntries toks)) with
  | some e => e.emotion
  | none => "neutral"

/-- The `(dominantEmotion, highestAbs)` part of the loop body, lifted to the
matched entries. -/
def domStep (a : Option String × ℚ) (e : LexEntry) : Option String × ℚ :=
  if |e.score| > a.2 then (some e.emotion, |e.score|) else a

theorem jsMax_eq_max (a b : ℚ) : jsMax a b = max a b := by
  unfold jsMax
  split_ifs with h
  · exact (max_eq_right h).symm
  · exact (max_eq_left (le_of_not_le h)).symm

theorem maxAbsVal_nonneg (es : List LexEntry) : 0 ≤ maxAbsVal es := by
  induction es with
  | nil => simp [maxAbsVal]
  | cons e es ih =>
    simp only [maxAbsVal, List.foldr_cons, jsMax_eq_max] at *
    exact le_max_of_le_right ih

theorem maxAbsVal_cons (e : LexEntry) (es : List LexEntry) :
    maxAbsVal (e :: es) = max |e.score| (maxAbsVal es) := by
  simp [maxAbsVal, jsMax_eq_max]

/-- The scorer's `(dominantEmotion, highestAbs)` scan projects onto a fold
over the matched entries. -/
theorem scoreStep_proj (toks : List (List Char)) (a : ScoreAcc) :
    ((toks.foldl scoreStep a).dom, (toks.foldl scoreStep a).hi)
      = (matchedEntries toks).foldl domStep (a.dom, a.hi) := by
  induction toks generalizing a with
  | nil => rfl
  | cons tok toks ih =>
    simp only [List.foldl_cons, matchedEntries, List.filterMap_cons]
    cases hL : LEXICON tok with
    | none =>
      have hstep : scoreStep a tok = a := by simp [scoreStep, hL]
      rw [hstep]
      exact ih a
    | some e =>
      have hstep : scoreStep a tok =
          if |e.score| > a.hi then ⟨a.sum + e.score, a.count + 1, some e.emotion, |e.score|⟩
          else ⟨a.sum + e.score, a.count + 1, a.dom, a.hi⟩ := by
        simp [scoreStep, hL]
      rw [hstep]
      simp only [List.foldl_cons]
      by_cases hgt : |e.score| > a.hi
      · rw [if_pos hgt]
        have := ih ⟨a.sum + e.score, a.count + 1, some e.emotion, |e.score|⟩
        simpa [domStep, if_pos hgt] using this
      · rw [if_neg hgt]
        have := ih ⟨a.sum + e.score, a.count + 1, a.dom, a.hi⟩
        simpa [domStep, if_neg hgt] using this

/-- Characterization of the strictly-greater scan: starting from a
nonnegative bar `h0`, it yields the first entry attaining the maximal
absolute valence whenever that maximum beats the bar, and leaves the
accumulator untouched otherwise. -/
theorem domFold_char (es : List LexEntry) (d0 : Option String) (h0 : ℚ) (hnn : 0 ≤ h0) :
    es.foldl domStep (d0, h0) =
      if h0 < maxAbsVal es then
        ((es.find? fun e => |e.score| == maxAbsVal es).map (fun e => e.emotion),
          maxAbsVal es)
      else (d0, h0) := by
  induction es generalizing d0 h0 with
  | nil =>
    have : ¬h0 < maxAbsVal [] := by simp [maxAbsVal]; linarith
    simp [this]
  | cons e es ih =>
    rw [maxAbsVal_cons]
    simp only [List.foldl_cons]
    by_cases hgt : |e.score| > h0
    · have hcond : h0 < max |e.score| (maxAbsVal es) := lt_max_of_lt_left hgt
      rw [if_pos hcond, domStep, if_pos hgt]
      rw [ih (some e.emotion) |e.score| (abs_nonneg _)]
      by_cases hM : |e.score| < maxAbsVal es
      · have hmax : max |e.score| (maxAbsVal es) = maxAbsVal es := max_eq_right hM.le
        rw [if_pos hM, hmax]
        have hne : |e.score| ≠ maxAbsVal es := ne_of_lt hM
        simp [List.find?_cons_of_neg, hne]
      · have hmax : max |e.score| (maxAbsVal es) = |e.score| :=
          max_eq_left (le_of_not_lt hM)
        rw [if_neg hM, hmax]
        simp
    · have heq : (h0 < max |e.score| (maxAbsVal es)) ↔ (h0 < maxAbsVal es) := by
        constructor
        · intro h
          rcases max_cases |e.score| (maxAbsVal es) with ⟨hm, _⟩ | ⟨hm, _⟩
          · rw [hm] at h; linarith [le_of_not_lt hgt]
          · rwa [hm] at h
        · intro h
          exact lt_max_of_lt_right h
      rw [domStep, if_neg hgt, ih d0 h0 hnn]
      by_cases hc : h0 < maxAbsVal es
      · have hcond : h0 < max |e.score| (maxAbsVal es) := heq.mpr hc
        rw [if_pos hc, if_pos hcond]
        have hm : max |e.score| (maxAbsVal es) = maxAbsVal es :=
          max_eq_right (le_trans (le_of_not_lt hgt) hc.le)
        rw [hm]
        have hne : |e.score| ≠ maxAbsVal es :=
          ne_of_lt (lt_of_le_of_lt (le_of_not_lt hgt) hc)
        simp [List.find?_cons_of_neg, hne]
      · have hcond : ¬h0 < max |e.score| (maxAbsVal es) := fun h => hc (heq.mp h)
        rw [if_neg hc, if_neg hcond]

/-- A lexicon entry of valence 0 carries the "neutral" emotion label. -/
theorem lex_zero_neutral : ∀ p ∈ LEXICON_LIST, p.2.score = 0 → p.2.emotion = ("neutral" : String) := by
  with_unfolding_all decide

theorem LEXICON_mem {tok : List Char} {e : LexEntry} (h : LEXICON tok = some e) :
    ∃ p ∈ LEXICON_LIST, p.2 = e := by
  unfold LEXICON at h
  rcases Option.map_eq_some'.mp h with ⟨p, hp, hpe⟩
  exact ⟨p, List.mem_of_find?_eq_some hp, hpe⟩

theorem matchedEntries_mem {toks : List (List Char)} {e : LexEntry}
    (h : e ∈ matchedEntries toks) : ∃ p ∈ LEXICON_LIST, p.2 = e := by
  rcases List.mem_filterMap.mp h with ⟨tok, _, hL⟩
  exact LEXICON_mem hL

/-- The scorer's dominant emotion coincides with the specification's
argmax-first-seen reading, for every non-empty input. -/
theorem scoreText_emotion_spec (t : List Char) (ht : t ≠ []) :
    ∃ r : ScoreResult, scoreText t = .res r ∧
      r.emotion = specDominant (tokenize (toLower t)) := by
  simp only [scoreText, if_neg ht]
  refine ⟨_, rfl, ?_⟩
  simp only
  set toks := tokenize (toLower t) with htoks
  set a := toks.foldl scoreStep ⟨0, 0, none, 0⟩ with ha
  have hproj := scoreStep_proj toks ⟨0, 0, none, 0⟩
  rw [← ha] at hproj
  have hchar := domFold_char (matchedEntries toks) none 0 le_rfl
  rw [← hproj] at hchar
  have hdom : a.dom = (Prod.fst ∘ id) (a.dom, a.hi) := rfl
  by_cases hM : (0 : ℚ) < maxAbsVal (matchedEntries toks)
  · rw [if_pos hM] at hchar
    have h1 : a.dom = ((matchedEntries toks).find?
        (fun e => |e.score| == maxAbsVal (matchedEntries toks))).map (fun e => e.emotion) :=
      congrArg Prod.fst hchar
    unfold specDominant
    cases hf : (matchedEntries toks).find?
        (fun e => |e.score| == maxAbsVal (matchedEntries toks)) with
    | none => rw [h1, hf]; rfl
    | some e => rw [h1, hf]; rfl
  · rw [if_neg hM] at hchar
    have h1 : a.dom = none := congrArg Prod.fst hchar
    have hzero : maxAbsVal (matchedEntries toks) = 0 :=
      le_antisymm (le_of_not_lt hM) (maxAbsVal_nonneg _)
    unfold specDominant
    cases hf : (matchedEntries toks).find?
        (fun e => |e.score| == maxAbsVal (matchedEntries toks)) with
    | none => rw [h1]; rfl
    | some e =>
      rw [h1]
      have hpred := List.find?_some hf
      have hmem := List.mem_of_find?_eq_some hf
      rw [hzero] at hpred
      have hesc : e.score = 0 := by
        have : |e.score| = 0 := by simpa [beq_iff_eq] using hpred
        exact abs_eq_zero.mp this
      rcases matchedEntries_mem hmem with ⟨p, hpmem, hpe⟩
      have := lex_zero_neutral p hpmem (by rw [hpe]; exact hesc)
      rw [hpe] at this
      simp [this]

/-- C6 counterexample: on the empty string no token matches, yet the scorer
returns the bare number 0, which carries no emotion field at all — in
particular its dominant emotion is not the string "neutral". -/
theorem C6_counterexample :
    emotionFieldOf (scoreText (("").data)) = none ∧
    emotionFieldOf (scoreText (("").data)) ≠ some ("neutral") := by
  with_unfolding_all decide

/-- C6 amended: for every non-empty input the scorer's dominant emotion is
the emotion label of the matched token with the largest absolute valence,
ties broken first-seen ("neutral" when no token matches); and on
"I feel sad and lonely" the score is negative and the dominant emotion is
"sadness" (for empty input the scorer returns the bare number 0, with no
emotion field). -/
theorem C6_dominant_emotion_amended :
    (∀ t : List Char, t ≠ [] →
      ∃ r : ScoreResult, scoreText t = .res r ∧
        r.emotion = specDominant (tokenize (toLower t))) ∧
    ((scoreRec (("I feel sad and lonely").data)).score < 0 ∧
      (scoreRec (("I feel sad and lonely").data)).emotion = "sadness") :=
  ⟨scoreText_emotion_spec, by with_unfolding_all decide, by with_unfolding_all decide⟩

/-- Witness for C6 (amended) at a concrete input. -/
theorem C6_witness :
    (("I feel sad and lonely").data ≠ ([] : List Char)) ∧
    ∃ r : ScoreResult, scoreText (("I feel sad and lonely").data) = .res r ∧
      r.emotion = specDominant (tokenize (toLower (("I feel sad and lonely").data))) :=
  ⟨by decide, C6_dominant_emotion_amended.1 _ (by decide)⟩

/-! ### The scorer never produces the reserved "crisis" label -/

theorem dom_cases (toks : List (List Char)) (a : ScoreAcc) :
    (toks.foldl scoreStep a).dom = a.dom ∨
    ∃ p ∈ LEXICON_LIST, (toks.foldl scoreStep a).dom = some p.2.emotion := by
  induction toks generalizing a with
  | nil => exact .inl rfl
  | cons tok toks ih =>
    simp only [List.foldl_cons]
    cases hL : LEXICON tok with
    | none =>
      have hstep : scoreStep a tok = a := by simp [scoreStep, hL]
      rw [hstep]
      exact ih a
    | some e =>
      by_cases hgt : |e.score| > a.hi
      · have hstep : scoreStep a tok =
            ⟨a.sum + e.score, a.count + 1, some e.emotion, |e.score|⟩ := by
          simp [scoreStep, hL, if_pos hgt]
        rw [hstep]
        rcases ih ⟨a.sum + e.score, a.count + 1, some e.emotion, |e.score|⟩ with h | h
        · rcases LEXICON_mem hL with ⟨p, hp, hpe⟩
          exact .inr ⟨p, hp, by rw [h]; simp [hpe]⟩
        · exact .inr h
      · have hstep : scoreStep a tok = ⟨a.sum + e.score, a.count + 1, a.dom, a.hi⟩ := by
          simp [scoreStep, hL, if_neg hgt]
        rw [hstep]
        exact ih ⟨a.sum + e.score, a.count + 1, a.dom, a.hi⟩

theorem lex_emotion_ne_crisis : ∀ p ∈ LEXICON_LIST, p.2.emotion ≠ ("crisis" : String) := by
  with_unfolding_all decide

theorem scoreRec_emotion_ne_crisis (t : List Char) :
    (scoreRec t).emotion ≠ ("crisis" : String) := by
  by_cases ht : t = []
  · subst ht
    simp only [scoreRec, scoreText, if_pos rfl]
    decide
  · simp only [scoreRec, scoreText, if_neg ht]
    rcases dom_cases (tokenize (toLower t)) ⟨0, 0, none, 0⟩ with h | ⟨p, hp, h⟩
    · simp only [h]
      decide
    · simp only [h, Option.getD_some]
      exact lex_emotion_ne_crisis p hp

/-! ### Turn-level bookkeeping -/

/-- The timeline event a turn pushes for a scored text. -/
def turnEv (text : List Char) (now : ℕ) : TimelineEvent :=
  ⟨now, (scoreRec text).score, (scoreRec text).emotion, (scoreRec text).count⟩

/-- The transcript entry for the user's message. -/
def userEntry (text : List Char) (now : ℕ) : TranscriptEntry :=
  ⟨.user, text, now, (scoreRec text).score, (scoreRec text).emotion, some (scoreRec text).count⟩

/-- The transcript entry for a scored bot reply. -/
def botEntry (text : List Char) (now : ℕ) : TranscriptEntry :=
  ⟨.bot, text, now, (scoreRec text).score, (scoreRec text).emotion, some (scoreRec text).count⟩

theorem localReply_noncrisis (st : SessionState) (t : List Char) (s : ScoreResult)
    (r : Fin 3) (now : ℕ) (h : detectCrisis t = false) :
    localReply st t s r now =
      (some (if s.score ≤ -(6/10) then HIGH_MSG else if s.score < -(2/10) then MOD_MSG
             else if s.score > 4/10 then POS_MSG else GENERICS.get (Fin.cast rfl r)), st) := by
  simp only [localReply, h, Bool.false_eq_true, if_false]
  split_ifs <;> rfl

/-- Transcript and timeline of a non-crisis server-branch success turn. -/
theorem submitTurn_success_proj (st : SessionState) (raw : List Char)
    (reply? : Option (List Char)) (safety? : Option Safety) (r : Fin 3) (now : ℕ)
    (h1 : trim raw ≠ []) (h2 : detectCrisis (trim raw) = false) :
    (submitTurn st raw true (.success reply? safety?) r now).transcript
      = st.transcript ++ [userEntry (trim raw) now, botEntry (defaultedReply reply?) now] ∧
    (submitTurn st raw true (.success reply? safety?) r now).timeline
      = pushToTimeline (pushToTimeline st.timeline (turnEv (trim raw) now))
          (turnEv (defaultedReply reply?) now) := by
  simp only [submitTurn, if_neg h1, h2, Bool.false_eq_true, if_false, if_true, botLog]
  constructor
  · split <;> simp [escalateToCrisis, userEntry, botEntry]
  · split <;> simp [escalateToCrisis, turnEv]

/-- Transcript and timeline of a non-crisis turn that goes through the local
selector (server failure fallback, or the local-only branch). -/
theorem submitTurn_local_proj (st : SessionState) (raw : List Char) (useServer : Bool)
    (outcome : FetchOutcome) (r : Fin 3) (now : ℕ)
    (h1 : trim raw ≠ []) (h2 : detectCrisis (trim raw) = false)
    (hbranch : useServer = false ∨ outcome = .failure) :
    ∃ rep : List Char,
      (localReply st (trim raw) (scoreRec (trim raw)) r now).1 = some rep ∧
      (submitTurn st raw useServer outcome r now).transcript
        = st.transcript ++ [userEntry (trim raw) now, botEntry rep now] ∧
      (submitTurn st raw useServer outcome r now).timeline
        = pushToTimeline (pushToTimeline st.timeline (turnEv (trim raw) now)) (turnEv rep now) := by
  refine ⟨_, by rw [localReply_noncrisis st _ _ _ _ h2], ?_⟩
  rcases hbranch with hu | ho
  · subst hu
    simp only [submitTurn, if_neg h1, h2, Bool.false_eq_true, if_false]
    rw [localReply_noncrisis _ _ _ _ _ h2]
    simp [botLog, userEntry, botEntry, turnEv]
  · subst ho
    cases useServer with
    | false =>
      simp only [submitTurn, if_neg h1, h2, Bool.false_eq_true, if_false]
      rw [localReply_noncrisis _ _ _ _ _ h2]
      simp [botLog, userEntry, botEntry, turnEv]
    | true =>
      simp only [submitTurn, if_neg h1, h2, Bool.false_eq_true, if_false, if_true]
      rw [localReply_noncrisis _ _ _ _ _ h2]
      simp [botLog, userEntry, botEntry, turnEv]

/-- C10: on every non-crisis turn that produces a bot reply — remote
success, remote-failure fallback, or local path — the bot reply text is
itself scored, the transcript gains exactly the user entry and one bot
entry carrying that score, and the timeline receives exactly two pushes:
the user-message event and the bot-reply event. -/
theorem C10_reply_rescoring :
    (∀ st raw reply? safety? r now, trim raw ≠ [] → detectCrisis (trim raw) = false →
      (submitTurn st raw true (.success reply? safety?) r now).transcript
        = st.transcript ++ [userEntry (trim raw) now, botEntry (defaultedReply reply?) now] ∧
      (submitTurn st raw true (.success reply? safety?) r now).timeline
        = pushToTimeline (pushToTimeline st.timeline (turnEv (trim raw) now))
            (turnEv (defaultedReply reply?) now)) ∧
    (∀ st raw useServer outcome r now, trim raw ≠ [] → detectCrisis (trim raw) = false →
      useServer = false ∨ outcome = .failure →
      ∃ rep : List Char,
        (localReply st (trim raw) (scoreRec (trim raw)) r now).1 = some rep ∧
        (submitTurn st raw useServer outcome r now).transcript
          = st.transcript ++ [userEntry (trim raw) now, botEntry rep now] ∧
        (submitTurn st raw useServer outcome r now).timeline
          = pushToTimeline (pushToTimeline st.timeline (turnEv (trim raw) now))
              (turnEv rep now)) :=
  ⟨fun st raw reply? safety? r now h1 h2 =>
      submitTurn_success_proj st raw reply? safety? r now h1 h2,
    fun st raw useServer outcome r now h1 h2 hb =>
      submitTurn_local_proj st raw useServer outcome r now h1 h2 hb⟩

/-- Witness for C10 at a concrete non-crisis local turn. -/
theorem C10_witness :
    (trim (("hello").data) ≠ []) ∧ (detectCrisis (trim (("hello").data)) = false) ∧
    ∃ rep : List Char,
      (localReply ⟨[], [], [], true⟩ (trim (("hello").data))
          (scoreRec (trim (("hello").data))) 0 0).1 = some rep ∧
      (submitTurn ⟨[], [], [], true⟩ (("hello").data) false .failure 0 0).transcript
        = ([] : List TranscriptEntry) ++ [userEntry (trim (("hello").data)) 0, botEntry rep 0] ∧
      (submitTurn ⟨[], [], [], true⟩ (("hello").data) false .failure 0 0).timeline
        = pushToTimeline (pushToTimeline ([] : List TimelineEvent)
            (turnEv (trim (("hello").data)) 0)) (turnEv rep 0) :=
  ⟨by decide, by decide,
    C10_reply_rescoring.2 ⟨[], [], [], true⟩ _ false .failure 0 0 (by decide) (by decide)
      (.inl rfl)⟩

/-- C4 counterexample: on a turn with a transport-level success but missing
reply field, the bot transcript entry is the fixed apology string; under a
transport failure on the same input it is the local selector's message; and
the apology is none of the local selector's possible outputs — so the
malformed case is not handled by falling back to the local selector. -/
theorem C4_counterexample :
    (submitTurn ⟨[], [], [], true⟩ (("hello").data) true (.success none none) 0 0).transcript.map
        TranscriptEntry.text = [("hello").data, APOLOGY] ∧
    (submitTurn ⟨[], [], [], true⟩ (("hello").data) true .failure 0 0).transcript.map
        TranscriptEntry.text = [("hello").data, ("Tell me more — I'm listening.").data] ∧
    APOLOGY ∉ GENERICS ∧ APOLOGY ≠ HIGH_MSG ∧ APOLOGY ≠ MOD_MSG ∧ APOLOGY ≠ POS_MSG := by
  with_unfolding_all decide

/-- C4 amended: a malformed success (reply field missing or empty) is not
treated like a transport failure: instead of invoking the local selector,
the handler substitutes the fixed apology string for the reply and proceeds
on the success path, so the turn is identical to a success turn whose reply
is the apology, and the new bot transcript entry is the apology. -/
theorem C4_malformed_amended :
    ∀ st raw reply? safety? r now, trim raw ≠ [] → detectCrisis (trim raw) = false →
      reply? = none ∨ reply? = some [] →
      submitTurn st raw true (.success reply? safety?) r now
        = submitTurn st raw true (.success (some APOLOGY) safety?) r now ∧
      (submitTurn st raw true (.success reply? safety?) r now).transcript
        = st.transcript ++ [userEntry (trim raw) now, botEntry APOLOGY now] := by
  intro st raw reply? safety? r now h1 h2 hmal
  have hdef : defaultedReply reply? = APOLOGY := by
    rcases hmal with h | h <;> subst h <;> rfl
  have hdef2 : defaultedReply (some APOLOGY) = APOLOGY := by
    have hne : APOLOGY ≠ [] := by decide
    simp [defaultedReply, hne]
  refine ⟨?_, ?_⟩
  · simp only [submitTurn, if_neg h1, h2, Bool.false_eq_true, if_false, hdef, hdef2]
  · rw [(submitTurn_success_proj st raw reply? safety? r now h1 h2).1, hdef]

/-- Witness for C4 (amended) at a concrete malformed response. -/
theorem C4_witness :
    (trim (("hello").data) ≠ []) ∧ (detectCrisis (trim (("hello").data)) = false) ∧
    submitTurn ⟨[], [], [], true⟩ (("hello").data) true (.success (some []) none) 0 0
      = submitTurn ⟨[], [], [], true⟩ (("hello").data) true (.success (some APOLOGY) none) 0 0 :=
  ⟨by decide, by decide,
    (C4_malformed_amended ⟨[], [], [], true⟩ _ (some []) none 0 0 (by decide) (by decide)
      (.inr rfl)).1⟩

/-- C5 counterexample: a locally-flagged crisis turn and a remote-flagged
crisis turn both show the overlay, but their observable crisis side effects
differ: the local turn appends one crisis-labelled transcript entry, the
remote-flagged turn appends none. -/
theorem C5_counterexample :
    ((submitTurn ⟨[], [], [], true⟩ (("I want to kill myself").data) true
        (.success (some (("hi").data)) (some ⟨true, true⟩)) 0 0).transcript.filter
        (fun e => e.emotion == "crisis")).length = 1 ∧
    ((submitTurn ⟨[], [], [], true⟩ (("hello").data) true
        (.success (some (("hi").data)) (some ⟨true, true⟩)) 0 0).transcript.filter
        (fun e => e.emotion == "crisis")).length = 0 ∧
    (submitTurn ⟨[], [], [], true⟩ (("I want to kill myself").data) true
        (.success (some (("hi").data)) (some ⟨true, true⟩)) 0 0).overlayHidden = false ∧
    (submitTurn ⟨[], [], [], true⟩ (("hello").data) true
        (.success (some (("hi").data)) (some ⟨true, true⟩)) 0 0).overlayHidden = false := by
  with_unfolding_all decide

/-- C5 amended: a successful remote response with `safety.crisis = true` on
a non-crisis input does trigger the same escalation routine — the turn
equals the corresponding unflagged turn followed by exactly one
`escalateToCrisis` call — but the turn-level crisis side effects are not
identical to the local crisis path: the remote-flagged turn adds no
crisis-labelled transcript entry, whereas a locally-flagged crisis turn
appends exactly one. -/
theorem C5_remote_crisis_amended :
    (∀ st raw reply? m r now, trim raw ≠ [] → detectCrisis (trim raw) = false →
      submitTurn st raw true (.success reply? (some ⟨true, m⟩)) r now
        = escalateToCrisis (submitTurn st raw true (.success reply? none) r now) now) ∧
    (∀ st raw reply? m r now, trim raw ≠ [] → detectCrisis (trim raw) = false →
      (submitTurn st raw true (.success reply? (some ⟨true, m⟩)) r now).transcript.filter
          (fun e => e.emotion == "crisis")
        = st.transcript.filter (fun e => e.emotion == "crisis")) ∧
    (∀ st raw useServer outcome r now, trim raw ≠ [] → detectCrisis (trim raw) = true →
      (submitTurn st raw useServer outcome r now).transcript.filter
          (fun e => e.emotion == "crisis")
        = st.transcript.filter (fun e => e.emotion == "crisis") ++
          [⟨.bot, ("Crisis escalation message").data, now, -1, "crisis", none⟩]) := by
  refine ⟨?_, ?_, ?_⟩
  · intro st raw reply? m r now h1 h2
    simp [submitTurn, if_neg h1, h2, safetyCrisis]
  · intro st raw reply? m r now h1 h2
    rw [(submitTurn_success_proj st raw reply? (some ⟨true, m⟩) r now h1 h2).1]
    have hu : ((userEntry (trim raw) now).emotion == ("crisis" : String)) = false := by
      simp only [userEntry]
      exact beq_eq_false_iff_ne.mpr (scoreRec_emotion_ne_crisis _)
    have hb : ((botEntry (defaultedReply reply?) now).emotion == ("crisis" : String)) = false := by
      simp only [botEntry]
      exact beq_eq_false_iff_ne.mpr (scoreRec_emotion_ne_crisis _)
    simp [List.filter_append, List.filter_cons, hu, hb]
  · intro st raw useServer outcome r now h1 h2
    simp only [submitTurn, if_neg h1, h2, if_true, escalateToCrisis]
    have hu : (((scoreRec (trim raw)).emotion == ("crisis" : String))) = false :=
      beq_eq_false_iff_ne.mpr (scoreRec_emotion_ne_crisis _)
    simp [List.filter_append, List.filter_cons, hu]

/-- Witness for C5 (amended) at a concrete remote-flagged turn. -/
theorem C5_witness :
    (trim (("hello").data) ≠ []) ∧ (detectCrisis (trim (("hello").data)) = false) ∧
    submitTurn ⟨[], [], [], true⟩ (("hello").data) true
        (.success (some (("hi").data)) (some ⟨true, true⟩)) 0 0
      = escalateToCrisis (submitTurn ⟨[], [], [], true⟩ (("hello").data) true
          (.success (some (("hi").data)) none) 0 0) 0 :=
  ⟨by decide, by decide,
    C5_remote_crisis_amended.1 ⟨[], [], [], true⟩ _ _ true 0 0 (by decide) (by decide)⟩

end Companion
